import Mathlib

/-!
# Verification of the `etternaonline-api` client library

This file gives a shallow Lean embedding of the core components of the
`etternaonline-api` Rust crate and proves (or refutes) the frozen claims of
its specification against that embedding.

Components embedded here, each from the module of the repository it lives in:

* `EO.Json`, `EO.JsonExt` — a model of `serde_json::Value` and of the
  extraction helpers in `src/extension_traits.rs` (`f32_`, `u32_`,
  `attempt_get`, ...).  `f32`/`f64` values are modelled as exact rationals.
* `EO.Common` — `parse_replay` from `src/common/mod.rs` (with its
  `ReplayNote { time, deviation : Option, lane, note_type, tick }` record)
  and an operational model of `AuthorizationManager` (same file).
* `EO.CommonStructs` — `Replay::split_into_lanes` and
  `Replay::split_into_notes_and_hits` from `src/common/structs.rs`
  (the `ReplayNote` with a `hit : Hit` field).
* `EO.Skillsets` — `calc_rating`, `calculate_chart_overall`,
  `calculate_player_overall`, `ChartSkillsets::overall`,
  `UserSkillsets::overall` from `src/common/structs/skillsets.rs`, with the
  two transcendental kernels (`erfc` and `2.0f32.powf (· / 10.0)`) kept
  abstract as parameters.
* `EO.V2` — the response-handling part of `Session::generic_request` from
  `src/v2/mod.rs`, modelled as a recursion over the finite sequence of
  responses the server sends for one logical request.
* `EO.Lib` — the inline rate-limiting block of `Session::generic_request`
  from `src/lib.rs` (lines 289–296), which sleeps until the cooldown has
  elapsed since the recorded instant but then records the pre-sleep
  arrival instant.
-/

namespace EO

/-! ## A model of `serde_json::Value`

Numbers are modelled as exact rationals; `f64 → f32` casts are modelled as
the identity (exact real arithmetic in place of floating point). -/

inductive Json where
  | null : Json
  | bool (b : Bool) : Json
  | num (q : ℚ) : Json
  | str (s : String) : Json
  | arr (xs : List Json) : Json
  | obj (fields : List (String × Json)) : Json

namespace Json

/-- `serde_json::Value::is_null` -/
def is_null : Json → Bool
  | .null => true
  | _ => false

/-- `serde_json::Value::as_str` -/
def as_str : Json → Option String
  | .str s => some s
  | _ => none

/-- `serde_json::Value::as_array` -/
def as_array : Json → Option (List Json)
  | .arr xs => some xs
  | _ => none

/-- `serde_json::Value::as_f64`: any JSON number is a float. -/
def as_f64 : Json → Option ℚ
  | .num q => some q
  | _ => none

/-- `serde_json::Value::as_i64`: succeeds exactly on integers that fit i64. -/
def as_i64 : Json → Option ℤ
  | .num q => if q.den = 1 ∧ -(2 ^ 63) ≤ q.num ∧ q.num < 2 ^ 63 then some q.num else none
  | _ => none

/-- `serde_json::Value::as_u64`: succeeds exactly on integers that fit u64. -/
def as_u64 : Json → Option ℕ
  | .num q => if q.den = 1 ∧ 0 ≤ q.num ∧ q.num < 2 ^ 64 then some q.num.toNat else none
  | _ => none

end Json

/-! ## The crate's `Error` type (`src/lib.rs` of the common era), restricted
to the variants the embedded code can produce. -/

inductive Error where
  /-- `Error::UnexpectedResponse(msg)` (carried message elided) -/
  | unexpectedResponse : Error
  /-- `Error::InvalidJsonStructure(comment)` produced by `attempt_get` -/
  | invalidJsonStructure : Error
  /-- a `serde_json` deserialization error (`Error::SerdeJson`) -/
  | serdeJson : Error
  deriving Repr, DecidableEq

/-! ## `src/extension_traits.rs`: the `JsonValueExt` helpers used by
`parse_replay`. `attempt_get` turns a failed extraction into
`Error::InvalidJsonStructure`. -/

namespace JsonExt

/-- `JsonValueExt::attempt_get`: run the extraction closure, mapping `None`
to `Error::InvalidJsonStructure`. -/
def attempt_get {α : Type} (j : Json) (action : Json → Option α) : Except Error α :=
  match action j with
  | some result => .ok result
  | none => .error .invalidJsonStructure

/-- `JsonValueExt::array` -/
def array (j : Json) : Except Error (List Json) :=
  attempt_get j Json.as_array

/-- `JsonValueExt::f32_` — `as_f64` followed by a (modelled-exact) cast to f32. -/
def f32_ (j : Json) : Except Error ℚ :=
  attempt_get j Json.as_f64

/-- `JsonValueExt::u64_` -/
def u64_ (j : Json) : Except Error ℕ :=
  attempt_get j Json.as_u64

/-- `JsonValueExt::u32_` — `u64_` followed by an `as u32` cast, which wraps. -/
def u32_ (j : Json) : Except Error ℕ :=
  (u64_ j).map (· % 2 ^ 32)

end JsonExt

/-- Outcome of running a piece of Rust code that may panic (index out of
bounds) in addition to returning a value. -/
inductive PanicOr (α : Type) where
  | panicked : PanicOr α
  | ok (a : α) : PanicOr α
  deriving Repr

instance {α : Type} [DecidableEq α] : DecidableEq (PanicOr α) := fun a b =>
  match a, b with
  | .panicked, .panicked => .isTrue rfl
  | .ok x, .ok y =>
    if h : x = y then .isTrue (by rw [h]) else .isFalse (fun hc => h (by injection hc))
  | .panicked, .ok _ => .isFalse (fun hc => PanicOr.noConfusion hc)
  | .ok _, .panicked => .isFalse (fun hc => PanicOr.noConfusion hc)

instance {ε α : Type} [DecidableEq ε] [DecidableEq α] : DecidableEq (Except ε α) := fun a b =>
  match a, b with
  | .error e, .error f =>
    if h : e = f then .isTrue (by rw [h]) else .isFalse (fun hc => h (by injection hc))
  | .ok x, .ok y =>
    if h : x = y then .isTrue (by rw [h]) else .isFalse (fun hc => h (by injection hc))
  | .error _, .ok _ => .isFalse (fun hc => Except.noConfusion hc)
  | .ok _, .error _ => .isFalse (fun hc => Except.noConfusion hc)

namespace Common

/-- `NoteType` from `src/common/structs/mod.rs`. -/
inductive NoteType where
  | tap | holdHead | holdTail | mine | lift | keysound | fake
  deriving Repr, DecidableEq

/-- The `ReplayNote` record that `parse_replay` in `src/common/mod.rs`
constructs: `time`, an optional `deviation` (`None` is the miss sentinel),
and optional `lane`, `note_type`, `tick`. -/
structure ReplayNote where
  time : ℚ
  deviation : Option ℚ
  lane : Option ℕ
  note_type : Option NoteType
  tick : Option ℕ
  deriving Repr, DecidableEq

/-- `Replay` as constructed by `parse_replay` in `src/common/mod.rs`. -/
structure Replay where
  notes : List ReplayNote
  deriving Repr, DecidableEq

/-- `note_type_from_eo` from `src/common/mod.rs`. -/
def note_type_from_eo (j : Json) : Except Error NoteType :=
  match JsonExt.u32_ j with
  | .error e => .error e
  | .ok 1 => .ok .tap
  | .ok 2 => .ok .holdHead
  | .ok 3 => .ok .holdTail
  | .ok 4 => .ok .mine
  | .ok 5 => .ok .lift
  | .ok 6 => .ok .keysound
  | .ok 7 => .ok .fake
  | .ok _ => .error .unexpectedResponse

/-- One row of the note-log array, as decoded by the closure inside
`parse_replay` (`src/common/mod.rs` lines 50–79).  The struct literal's
fields are evaluated in source order: `time` (`note_json[0]`, panics when
the row has no element 0), `deviation` (`note_json[1]`, panics when the row
has fewer than two elements), then the independently optional `lane`
(`get(2)`, with `-1` decoding to `None`), `note_type` (`get(3)`) and `tick`
(`get(4)`). -/
def parse_replay_note (row : Json) : PanicOr (Except Error ReplayNote) :=
  match row.as_array with
  | none => .ok (.error .invalidJsonStructure)
  | some note_json =>
    match note_json.get? 0 with
    | none => .panicked
    | some slot0 =>
      match JsonExt.f32_ slot0 with
      | .error e => .ok (.error e)
      | .ok time =>
        match note_json.get? 1 with
        | none => .panicked
        | some slot1 =>
          match JsonExt.f32_ slot1 with
          | .error e => .ok (.error e)
          | .ok dev_ms =>
            let deviation : Option ℚ :=
              let deviation := dev_ms / 1000
              if |deviation - 18 / 100| < 1 / 10000000 then none else some deviation
            match note_json.get? 2 with
            | some j =>
              match JsonExt.attempt_get j (fun json =>
                  (json.as_i64).bind (fun l =>
                    if l = -1 then some none
                    else if 0 ≤ l ∧ l ≤ 255 then some (some l.toNat)
                    else none)) with
              | .error e => .ok (.error e)
              | .ok lane =>
                match note_json.get? 3 with
                | some j =>
                  match note_type_from_eo j with
                  | .error e => .ok (.error e)
                  | .ok nt => finish time deviation lane (some nt) note_json
                | none => finish time deviation lane none note_json
            | none =>
              match note_json.get? 3 with
              | some j =>
                match note_type_from_eo j with
                | .error e => .ok (.error e)
                | .ok nt => finish time deviation none (some nt) note_json
              | none => finish time deviation none none note_json
where
  /-- evaluate the final `tick` field (`get(4)`) and build the note -/
  finish (time : ℚ) (deviation : Option ℚ) (lane : Option ℕ)
      (note_type : Option NoteType) (note_json : List Json) :
      PanicOr (Except Error ReplayNote) :=
    match note_json.get? 4 with
    | some x =>
      match JsonExt.u32_ x with
      | .error e => .ok (.error e)
      | .ok tick => .ok (.ok ⟨time, deviation, lane, note_type, some tick⟩)
    | none => .ok (.ok ⟨time, deviation, lane, note_type, none⟩)

/-- The `.map(...).collect::<Result<Vec<ReplayNote>, Error>>()` over the
rows: stops at the first error; a panic in the closure unwinds. -/
def collect_notes : List Json → PanicOr (Except Error (List ReplayNote))
  | [] => .ok (.ok [])
  | row :: rest =>
    match parse_replay_note row with
    | .panicked => .panicked
    | .ok (.error e) => .ok (.error e)
    | .ok (.ok note) =>
      match collect_notes rest with
      | .panicked => .panicked
      | .ok (.error e) => .ok (.error e)
      | .ok (.ok notes) => .ok (.ok (note :: notes))

/-- `parse_replay` from `src/common/mod.rs`, parameterised over `dec`, the
external `serde_json::from_str` collaborator used to parse the *inner*
replay string (`none` models a deserialization failure).

The outer shape handling is literal: `null` returns `Ok(None)`; an array
indexes `values[0]` (panicking when the array is empty) and returns
`Ok(None)` when that first element is not a string; a bare string is
unwrapped; every other shape returns `Ok(None)`.  After decoding, an empty
note array is normalized to `Ok(None)`. -/
def parse_replay (dec : String → Option Json) (json : Json) :
    PanicOr (Except Error (Option Replay)) :=
  if json.is_null then .ok (.ok none)
  else
    let inner : String → PanicOr (Except Error (Option Replay)) := fun replay_str =>
      match dec replay_str with
      | none => .ok (.error .serdeJson)
      | some innerJson =>
        match JsonExt.array innerJson with
        | .error e => .ok (.error e)
        | .ok rows =>
          match collect_notes rows with
          | .panicked => .panicked
          | .ok (.error e) => .ok (.error e)
          | .ok (.ok notes) =>
            if notes.length = 0 then .ok (.ok none)
            else .ok (.ok (some ⟨notes⟩))
    match json with
    | .arr values =>
      match values.get? 0 with
      | none => .panicked
      | some v =>
        match v.as_str with
        | some x => inner x
        | none => .ok (.ok none)
    | .str s => inner s
    | _ => .ok (.ok none)

end Common

/-! ## `src/common/structs.rs`: the `Replay` with a `hit : Hit` field and its
lane splitters. -/

namespace CommonStructs

/-- `etterna::Hit`: a tagged `Miss | Hit { deviation }`. -/
inductive Hit where
  | miss : Hit
  | hit (deviation : ℚ) : Hit
  deriving Repr, DecidableEq

/-- `ReplayNote` from `src/common/structs.rs`: `time`, `hit`, and optional
`lane`, `note_type`, `tick`. -/
structure ReplayNote where
  time : ℚ
  hit : Hit
  lane : Option ℕ
  note_type : Option Common.NoteType
  tick : Option ℕ
  deriving Repr, DecidableEq

/-- `Replay` from `src/common/structs.rs`. -/
structure Replay where
  notes : List ReplayNote
  deriving Repr, DecidableEq

/-- `etterna::NoteAndHitSeconds` (the per-lane series). -/
structure NoteAndHitSeconds where
  note_seconds : List ℚ
  hit_seconds : List ℚ
  deriving Repr, DecidableEq

/-- The `[NoteAndHitSeconds; 4]` array of `split_into_lanes`. -/
structure Lanes4 where
  lane0 : NoteAndHitSeconds
  lane1 : NoteAndHitSeconds
  lane2 : NoteAndHitSeconds
  lane3 : NoteAndHitSeconds
  deriving Repr, DecidableEq

/-- Four empty lane series (the initial `lanes` value in the source). -/
def Lanes4.empty : Lanes4 :=
  ⟨⟨[], []⟩, ⟨[], []⟩, ⟨[], []⟩, ⟨[], []⟩⟩

/-- `lanes[i] = f(lanes[i])`; the loop only ever indexes with `i < 4`. -/
def Lanes4.update (ls : Lanes4) (i : ℕ) (f : NoteAndHitSeconds → NoteAndHitSeconds) :
    Lanes4 :=
  match i with
  | 0 => { ls with lane0 := f ls.lane0 }
  | 1 => { ls with lane1 := f ls.lane1 }
  | 2 => { ls with lane2 := f ls.lane2 }
  | 3 => { ls with lane3 := f ls.lane3 }
  | _ => ls

/-- The loop body of `Replay::split_into_lanes`
(`src/common/structs.rs` lines 57–74), with the `?` operator on
`note.lane` / `note.note_type` modelled as an early `none` return.  Note the
source order: the `note.lane? >= 4` test runs *before* the `note.note_type?`
test, so a note with `lane >= 4` never has its `note_type` inspected. -/
def split_into_lanes_loop : List ReplayNote → Lanes4 → Option Lanes4
  | [], lanes => some lanes
  | note :: rest, lanes =>
    match note.lane with
    | none => none
    | some lane =>
      if 4 ≤ lane then split_into_lanes_loop rest lanes
      else
        match note.note_type with
        | none => none
        | some nt =>
          if ¬(nt = .tap ∨ nt = .holdHead) then split_into_lanes_loop rest lanes
          else
            let lanes := lanes.update lane
              (fun s => { s with note_seconds := s.note_seconds ++ [note.time] })
            let lanes :=
              match note.hit with
              | .hit deviation => lanes.update lane
                  (fun s => { s with hit_seconds := s.hit_seconds ++ [note.time + deviation] })
              | .miss => lanes
            split_into_lanes_loop rest lanes

/-- `Replay::split_into_lanes` from `src/common/structs.rs`. -/
def Replay.split_into_lanes (r : Replay) : Option Lanes4 :=
  split_into_lanes_loop r.notes .empty

/-- The loop of `Replay::split_into_notes_and_hits`
(`src/common/structs.rs` lines 91–102). -/
def split_into_notes_and_hits_loop : List ReplayNote → NoteAndHitSeconds →
    Option NoteAndHitSeconds
  | [], result => some result
  | note :: rest, result =>
    match note.note_type with
    | none => none
    | some nt =>
      if ¬(nt = .tap ∨ nt = .holdHead) then split_into_notes_and_hits_loop rest result
      else
        let result := { result with note_seconds := result.note_seconds ++ [note.time] }
        let result :=
          match note.hit with
          | .hit deviation =>
            { result with hit_seconds := result.hit_seconds ++ [note.time + deviation] }
          | .miss => result
        split_into_notes_and_hits_loop rest result

/-- `Replay::split_into_notes_and_hits` from `src/common/structs.rs`. -/
def Replay.split_into_notes_and_hits (r : Replay) : Option NoteAndHitSeconds :=
  split_into_notes_and_hits_loop r.notes ⟨[], []⟩

/-- The lane series described by the spec's words, written independently of
the source loop: only notes of type Tap or HoldHead with `lane < 4` are
retained; each retained note's `time` is appended to its lane's
`note_seconds`, and `time + deviation` is appended to `hit_seconds` only
when the note is a hit.  Used to compare the source's `split_into_lanes`
against the claim. -/
def claim_lane_step (lanes : Lanes4) (note : ReplayNote) : Lanes4 :=
  match note.lane, note.note_type with
  | some lane, some nt =>
    if lane < 4 ∧ (nt = .tap ∨ nt = .holdHead) then
      let lanes := lanes.update lane
        (fun s => { s with note_seconds := s.note_seconds ++ [note.time] })
      match note.hit with
      | .hit deviation => lanes.update lane
          (fun s => { s with hit_seconds := s.hit_seconds ++ [note.time + deviation] })
      | .miss => lanes
    else lanes
  | _, _ => lanes

def lanes_per_claim (notes : List ReplayNote) : Lanes4 :=
  notes.foldl claim_lane_step .empty

/-- A note at which the `split_into_lanes` loop's `?` operator fires: its
`lane` is absent, or its `lane` is `< 4` while its `note_type` is absent. -/
def lane_split_fails (n : ReplayNote) : Prop :=
  n.lane = none ∨ ∃ l, n.lane = some l ∧ l < 4 ∧ n.note_type = none

/-- Executable form of `lane_split_fails`. -/
def lane_split_failsb (n : ReplayNote) : Bool :=
  match n.lane with
  | none => true
  | some l => decide (l < 4) && decide (n.note_type = none)

instance (n : ReplayNote) : Decidable (lane_split_fails n) :=
  decidable_of_iff (lane_split_failsb n = true)
    (by unfold lane_split_fails lane_split_failsb; cases n.lane <;> simp)

end CommonStructs

/-! ## `src/common/structs/skillsets.rs`: the rating aggregation.

The two transcendental kernels are kept abstract: `erfc` models
`libm::erfc` (through the f32/f64 casts) and `pow` models
`2f32.powf (· / 10.0)`, i.e. `pow r` stands for `2^(r/10)`.  The `while`
loop of `calc_rating` has no syntactic bound in the source (it terminates
for the real `erfc` because the power sum is decreasing and the cap is
increasing in the candidate rating); for an abstract kernel it is given an
explicit `fuel` bound, and every theorem below holds for every `fuel`. -/

namespace Skillsets

/-- `is_rating_okay` from `src/common/structs/skillsets.rs`: the sum of the
positive per-score power levels must stay below `2^(rating/10)`. -/
def is_rating_okay (erfc pow : ℚ → ℚ) (rating : ℚ) (ssrs : List ℚ)
    (delta_multiplier : ℚ) : Bool :=
  let max_power_sum := pow rating
  let power_sum :=
    ((ssrs.map (fun ssr => 2 / erfc (delta_multiplier * (ssr - rating)) - 2)).filter
      (fun x => decide (0 < x))).sum
  decide (power_sum < max_power_sum)

/-- The inner `while !is_rating_okay(rating + resolution) { rating += resolution }`
loop of `calc_rating`, bounded by `fuel`. -/
def climb (erfc pow : ℚ → ℚ) (ssrs : List ℚ) (delta_multiplier : ℚ) :
    ℕ → ℚ → ℚ → ℚ
  | 0, rating, _ => rating
  | fuel + 1, rating, resolution =>
    if is_rating_okay erfc pow (rating + resolution) ssrs delta_multiplier then rating
    else climb erfc pow ssrs delta_multiplier fuel (rating + resolution) resolution

/-- The `for _ in 0..num_iters` loop of `calc_rating`: climb at the current
resolution, then halve the resolution. Returns the final
`(rating, resolution)` pair. -/
def calc_rating_loop (fuel : ℕ) (erfc pow : ℚ → ℚ) (ssrs : List ℚ)
    (delta_multiplier : ℚ) : ℕ → ℚ → ℚ → ℚ × ℚ
  | 0, rating, resolution => (rating, resolution)
  | n + 1, rating, resolution =>
    let rating := climb erfc pow ssrs delta_multiplier fuel rating resolution
    calc_rating_loop fuel erfc pow ssrs delta_multiplier n rating (resolution / 2)

/-- `calc_rating` from `src/common/structs/skillsets.rs`: iterative
refinement starting from `rating = 0`, `resolution = 10.24`, optionally
adding `resolution * 2` at the end, then applying `final_multiplier`. -/
def calc_rating (fuel : ℕ) (erfc pow : ℚ → ℚ) (ssrs : List ℚ) (num_iters : ℕ)
    (add_res_x2 : Bool) (final_multiplier delta_multiplier : ℚ) : ℚ :=
  let p := calc_rating_loop fuel erfc pow ssrs delta_multiplier num_iters 0 (1024 / 100)
  let rating := if add_res_x2 then p.1 + p.2 * 2 else p.1
  rating * final_multiplier

/-- `calculate_chart_overall`: `calc_rating(skillsets, 11, true, 1.11, 0.25)`. -/
def calculate_chart_overall (fuel : ℕ) (erfc pow : ℚ → ℚ) (skillsets : List ℚ) : ℚ :=
  calc_rating fuel erfc pow skillsets 11 true (111 / 100) (25 / 100)

/-- `calculate_player_overall`: `calc_rating(skillsets, 11, true, 1.0, 0.1)`. -/
def calculate_player_overall (fuel : ℕ) (erfc pow : ℚ → ℚ) (skillsets : List ℚ) : ℚ :=
  calc_rating fuel erfc pow skillsets 11 true 1 (1 / 10)

/-- `ChartSkillsets` (seven per-category values). -/
structure ChartSkillsets where
  stream : ℚ
  jumpstream : ℚ
  handstream : ℚ
  stamina : ℚ
  jackspeed : ℚ
  chordjack : ℚ
  technical : ℚ
  deriving Repr, DecidableEq

/-- The `&[f32; 7]` slice passed to the aggregator. -/
def ChartSkillsets.asList (s : ChartSkillsets) : List ℚ :=
  [s.stream, s.jumpstream, s.handstream, s.stamina, s.jackspeed, s.chordjack, s.technical]

/-- `ChartSkillsets::overall`: the aggregate, overridden by the largest
individual category (`aggregated_skillsets.max(max_skillset)`). -/
def ChartSkillsets.overall (fuel : ℕ) (erfc pow : ℚ → ℚ) (s : ChartSkillsets) : ℚ :=
  let aggregated_skillsets := calculate_chart_overall fuel erfc pow s.asList
  let max_skillset :=
    max (max (max (max (max (max s.stream s.jumpstream) s.handstream) s.stamina)
      s.jackspeed) s.chordjack) s.technical
  max aggregated_skillsets max_skillset

/-- `UserSkillsets` (seven per-category values). -/
structure UserSkillsets where
  stream : ℚ
  jumpstream : ℚ
  handstream : ℚ
  stamina : ℚ
  jackspeed : ℚ
  chordjack : ℚ
  technical : ℚ
  deriving Repr, DecidableEq

/-- The `&[f32; 7]` slice passed to the aggregator. -/
def UserSkillsets.asList (s : UserSkillsets) : List ℚ :=
  [s.stream, s.jumpstream, s.handstream, s.stamina, s.jackspeed, s.chordjack, s.technical]

/-- `UserSkillsets::overall`: the plain player aggregate, with no
max-category override. -/
def UserSkillsets.overall (fuel : ℕ) (erfc pow : ℚ → ℚ) (s : UserSkillsets) : ℚ :=
  calculate_player_overall fuel erfc pow s.asList

end Skillsets

/-! ## `AuthorizationManager` (`src/common/mod.rs` lines 99–155)

An operational model of `AuthorizationManager::refresh` for `n` threads
that each call `refresh` once.  The generic credential type `T` is
instantiated with `ℕ`, the login error type `E` with `ℕ`.  One transition
corresponds to one synchronization-relevant statement of the source:

* `start`    — `let refresh_guard = self.refresh_checking_mutex.lock().unwrap()`
               (blocks while another thread holds the mutex);
* `tryRead`  — `try_lock_immutable(&self.lock).is_some()` (the temporary
               read guard is dropped inside the statement; it succeeds
               exactly when no writer holds the `RwLock` — concurrent
               `get_authorization` readers are not modelled, none are
               present in the scenarios of the claims);
* `unlockA`  — success path: `drop(refresh_guard)`;
* `acqWrite` — `self.lock.write().unwrap()` (blocks while a writer holds
               the lock);
* `login`    — `*write_guard = (f)()?`: consumes the next entry of
               `loginResults`, bumps `loginCount`, stores the credential on
               `Ok`, releases the write lock (the guard is dropped both on
               success and on the `?` early return) and finishes with the
               corresponding `Result<(), E>`;
* `waitRead` — failure path: `drop(self.lock.read().unwrap())` (blocks
               while a writer holds the lock, then immediately releases);
* `finishB`  — `drop(refresh_guard)` and return `Ok(())`.

A schedule is a list of thread indices; a scheduled thread whose next
statement is blocked simply does not advance. -/

namespace Common

/-- Program counter of one thread running `AuthorizationManager::refresh`. -/
inductive RefreshPC where
  | start | tryRead | unlockA | acqWrite | login | waitRead | finishB | done
  deriving Repr, DecidableEq

/-- One thread: its program counter and, once finished, its
`Result<(), E>`. -/
structure RefreshThread where
  pc : RefreshPC
  result : Option (Except ℕ Unit)
  deriving Repr, DecidableEq

/-- The shared state of one `AuthorizationManager` plus the running
threads. -/
structure AMState where
  /-- holder of `refresh_checking_mutex`, if any -/
  mutex : Option ℕ
  /-- holder of the credential `RwLock` in write mode, if any -/
  writer : Option ℕ
  /-- the credential cell guarded by the `RwLock` -/
  credential : ℕ
  /-- results of the successive invocations of the injected login closure -/
  loginResults : List (Except ℕ ℕ)
  /-- number of times the login closure has been invoked -/
  loginCount : ℕ
  threads : List RefreshThread
  deriving Repr, DecidableEq

/-- One step of thread `i` (no-op when `i` is blocked, finished, or out of
range). -/
def AMState.step (s : AMState) (i : ℕ) : AMState :=
  match s.threads.get? i with
  | none => s
  | some th =>
    match th.pc with
    | .start =>
      if s.mutex = none then
        { s with mutex := some i, threads := s.threads.set i { th with pc := .tryRead } }
      else s
    | .tryRead =>
      if s.writer = none then
        { s with threads := s.threads.set i { th with pc := .unlockA } }
      else
        { s with threads := s.threads.set i { th with pc := .waitRead } }
    | .unlockA =>
      { s with mutex := none, threads := s.threads.set i { th with pc := .acqWrite } }
    | .acqWrite =>
      if s.writer = none then
        { s with writer := some i, threads := s.threads.set i { th with pc := .login } }
      else s
    | .login =>
      match s.loginResults with
      | [] => s
      | .ok c :: rest =>
        { s with writer := none, credential := c, loginResults := rest,
                 loginCount := s.loginCount + 1,
                 threads := s.threads.set i ⟨.done, some (.ok ())⟩ }
      | .error e :: rest =>
        { s with writer := none, loginResults := rest,
                 loginCount := s.loginCount + 1,
                 threads := s.threads.set i ⟨.done, some (.error e)⟩ }
    | .waitRead =>
      if s.writer = none then
        { s with threads := s.threads.set i { th with pc := .finishB } }
      else s
    | .finishB =>
      { s with mutex := none, threads := s.threads.set i ⟨.done, some (.ok ())⟩ }
    | .done => s

/-- Run a schedule (a list of thread indices) from a state. -/
def AMState.run (s : AMState) (schedule : List ℕ) : AMState :=
  schedule.foldl AMState.step s

/-- Initial state: credential `cred`, `n` threads about to call `refresh`,
whose login closures will produce `results` in invocation order. -/
def AMState.init (cred : ℕ) (results : List (Except ℕ ℕ)) (n : ℕ) : AMState :=
  ⟨none, none, cred, results, 0, List.replicate n ⟨.start, none⟩⟩

end Common

/-! ## `Session::generic_request` (`src/v2/mod.rs` lines 164–252)

The response-handling pipeline for one logical request, modelled over the
finite sequence of responses the server produces for the successive
attempts.  The HTTP transport, the rate gate and the outgoing request
construction are external to the decision structure being verified; a
response is modelled by what the code inspects: whether the transport timed
out, the status code, and the body (empty / not JSON / JSON with an
optional `errors[0].title` string and a `data` payload).

`self.login()?` inside the `"Unauthorized"` arm runs
`AuthorizationManager::refresh` with a login request; the model counts
these refreshes and assumes each succeeds (the claim under study concerns
the retry behaviour of the logical request, not login failures).  The
recursion consumes one response per attempt; an empty response list means
the pipeline is still re-issuing the request (it has not returned), which
is how the model renders non-termination under persistently Unauthorized
answers. -/

namespace V2

/-- What the pipeline inspects of a response body. -/
inductive BodyModel where
  /-- `response.is_empty()` -/
  | empty : BodyModel
  /-- nonempty but `serde_json::from_str` fails -/
  | notJson : BodyModel
  /-- parses as JSON; `errorTitle` is `json["errors"][0]["title"].as_str()`
  and `data` stands for `json["data"]` -/
  | json (errorTitle : Option String) (data : ℕ) : BodyModel
  deriving Repr, DecidableEq

/-- One transport response: timeout flag, HTTP status, body. -/
structure HttpResponse where
  timedOut : Bool
  status : ℕ
  body : BodyModel
  deriving Repr, DecidableEq

/-- The `Error` variants reachable from `generic_request` in
`src/v2/mod.rs`. -/
inductive ApiError where
  | timeout
  | serverIsDown (status_code : ℕ)
  | emptyServerResponse
  | serdeJson
  | invalidJsonStructure
  | scoreNotFound
  | chartNotTracked
  | userNotFound
  | chartAlreadyFavorited
  | databaseError
  | goalAlreadyExists
  | chartAlreadyAdded
  | invalidXml
  | noUsersFound
  | unknownApiError (title : String)
  deriving Repr, DecidableEq

/-- The static error-title table of `generic_request` (every arm except
`"Unauthorized"`, which retries instead of mapping to an error). -/
def map_error_title (title : String) : ApiError :=
  if title = "Score not found" then .scoreNotFound
  else if title = "Chart not tracked" then .chartNotTracked
  else if title = "User not found" then .userNotFound
  else if title = "Favorite already exists" then .chartAlreadyFavorited
  else if title = "Database error" then .databaseError
  else if title = "Goal already exist" then .goalAlreadyExists
  else if title = "Chart already exists" then .chartAlreadyAdded
  else if title = "Malformed XML file" then .invalidXml
  else if title = "No users found" then .noUsersFound
  else .unknownApiError title

/-- `Session::generic_request`: processes the responses of the successive
attempts in order.  Returns the surfaced `Result` (`none` when every
response was consumed by a retry, i.e. the pipeline is still running) and
the number of re-login refreshes performed. -/
def generic_request : List HttpResponse → ℕ → Option (Except ApiError ℕ) × ℕ
  | [], refreshes => (none, refreshes)
  | r :: rest, refreshes =>
    if r.timedOut then (some (.error .timeout), refreshes)
    else if 500 ≤ r.status then (some (.error (.serverIsDown r.status)), refreshes)
    else
      match r.body with
      | .empty => (some (.error .emptyServerResponse), refreshes)
      | .notJson => (some (.error .serdeJson), refreshes)
      | .json errorTitle data =>
        if 400 ≤ r.status then
          match errorTitle with
          | none => (some (.error .invalidJsonStructure), refreshes)
          | some title =>
            if title = "Unauthorized" then
              -- `self.login()?; return self.generic_request(method, path, ...)`
              generic_request rest (refreshes + 1)
            else (some (.error (map_error_title title)), refreshes)
        else (some (.ok data), refreshes)

/-- A response that takes the retry branch: not a timeout, status in
`[400, 500)`, JSON body whose `errors[0].title` is `"Unauthorized"`. -/
def is_unauthorized (r : HttpResponse) : Bool :=
  !r.timedOut && decide (r.status < 500) && decide (400 ≤ r.status) &&
    (match r.body with
     | .json (some title) _ => title = "Unauthorized"
     | _ => false)

end V2

/-! ## The rate limiting of `Session::generic_request` in `src/lib.rs` -/

namespace Lib

/-- The inline rate-limiting block of `Session::generic_request`
(`src/lib.rs` lines 289–296):

```
let now = std::time::Instant::now();
let time_since_last_request = now.duration_since(self.last_request);
if time_since_last_request < self.rate_limit {
    std::thread::sleep(self.rate_limit - time_since_last_request);
}
self.last_request = now;
```

Instants are modelled as integers.  `now` is the pre-sleep arrival
instant; the request is issued once the sleep (if any) finishes, at
`max now (last_request + rate_limit)`, but the value stored into
`self.last_request` is the **pre-sleep arrival** `now`.  Returns
(instant at which the request is issued, updated `last_request`). -/
def rate_limiting_step (last_request : ℤ) (rate_limit : ℤ) (now : ℤ) : ℤ × ℤ :=
  (max now (last_request + rate_limit), now)

/-- Sequential requests through `generic_request`'s rate limiting: feed
the arrival instants in order, collecting for each request the pair
(issue instant, `last_request` value recorded by that request). -/
def run_rate_limiting (last_request : ℤ) (rate_limit : ℤ) : List ℤ → List (ℤ × ℤ)
  | [] => []
  | now :: rest =>
    let p := rate_limiting_step last_request rate_limit now
    p :: run_rate_limiting p.2 rate_limit rest

end Lib

end EO

/-! # Theorems -/

namespace EO.Lib

/-- C3: the claim fails on the rate-limiting code present under `src/`
(`src/lib.rs` lines 289–296), which stores the **pre-sleep arrival**
instant (`self.last_request = now`) instead of
`max(now, state.last + min_interval)`.  With cooldown 10,
`last_request = 0`, and sequential arrivals at instants 1 and 10 (the
second caller arrives at the very moment the first request is issued),
the two requests are issued at instants 10 and 11 — only 1 apart — and
the recorded instants are 1 and 10 — only 9 apart, both below the
cooldown; and the instant stored by the first call is 1, not
`max(1, 0 + 10) = 10` as the claim requires. -/
theorem c3_rate_limiting_divergence :
    run_rate_limiting 0 10 [1, 10] = [(10, 1), (11, 10)] ∧
    (rate_limiting_step 0 10 1).2 = 1 ∧
    max 1 (0 + 10) = (10 : ℤ) ∧
    (11 : ℤ) - 10 < 10 ∧ (10 : ℤ) - 1 < 10 := by
  refine ⟨rfl, rfl, rfl, by norm_num, by norm_num⟩

end EO.Lib

namespace EO.V2

/-- The surfaced result of `generic_request` does not depend on the number
of refreshes already performed. -/
theorem generic_request_fst_const : ∀ (rs : List HttpResponse) (k k' : ℕ),
    (generic_request rs k).1 = (generic_request rs k').1 := by
  intro rs
  induction rs with
  | nil => intro k k'; rfl
  | cons r rest ih =>
    intro k k'
    rcases r with ⟨tmo, st, body⟩
    cases tmo
    · by_cases h5 : 500 ≤ st
      · simp [generic_request, h5]
      · cases body with
        | empty => simp [generic_request, h5]
        | notJson => simp [generic_request, h5]
        | json title data =>
          by_cases h4 : 400 ≤ st
          · cases title with
            | none => simp [generic_request, h5, h4]
            | some t =>
              by_cases ht : t = "Unauthorized"
              · simp only [generic_request, h5, h4, ht, if_true, if_false, ite_true,
                  ite_false]
                exact ih _ _
              · simp [generic_request, h5, h4, ht]
          · simp [generic_request, h5, h4]
    · simp [generic_request]

/-- An Unauthorized response makes `generic_request` refresh once and
re-issue on the remaining responses. -/
theorem generic_request_unauth_step (r : HttpResponse) (rest : List HttpResponse) (k : ℕ)
    (h : is_unauthorized r = true) :
    generic_request (r :: rest) k = generic_request rest (k + 1) := by
  rcases r with ⟨tmo, st, body⟩
  cases body with
  | empty => simp [is_unauthorized] at h
  | notJson => simp [is_unauthorized] at h
  | json title data =>
    cases title with
    | none => simp [is_unauthorized] at h
    | some t =>
      simp only [is_unauthorized, Bool.and_eq_true, decide_eq_true_eq,
        Bool.not_eq_true'] at h
      obtain ⟨⟨⟨htmo, h5⟩, h4⟩, ht⟩ := h
      subst htmo
      have h5' : ¬ 500 ≤ st := by omega
      simp [generic_request, h5', h4, ht]

/-- A non-Unauthorized response settles the request: no further refresh is
performed. -/
theorem generic_request_settled (r : HttpResponse) (rest : List HttpResponse) (k : ℕ)
    (h : is_unauthorized r = false) :
    (generic_request (r :: rest) k).2 = k := by
  rcases r with ⟨tmo, st, body⟩
  cases tmo
  · by_cases h5 : 500 ≤ st
    · simp [generic_request, h5]
    · cases body with
      | empty => simp [generic_request, h5]
      | notJson => simp [generic_request, h5]
      | json title data =>
        by_cases h4 : 400 ≤ st
        · cases title with
          | none => simp [generic_request, h5, h4]
          | some t =>
            by_cases ht : t = "Unauthorized"
            · exfalso
              simp [is_unauthorized, ht] at h
              omega
            · simp [generic_request, h5, h4, ht]
        · simp [generic_request, h5, h4]
  · simp [generic_request]

/-- C1 counterexample: for the response sequence Unauthorized,
Unauthorized, 200-OK, the pipeline performs **two** refreshes and returns
the OK payload — the second Unauthorized is *not* surfaced as an error and
the retry budget is not 1, refuting the claim for this sequence of server
responses. -/
theorem c1_counterexample :
    generic_request
        [⟨false, 401, .json (some "Unauthorized") 0⟩,
         ⟨false, 401, .json (some "Unauthorized") 0⟩,
         ⟨false, 200, .json none 7⟩] 0
      = (some (.ok 7), 2) := rfl

/-- C1 amended: on every structured Unauthorized error body the pipeline
calls refresh and re-issues the request *recursively, with no retry
budget*: a further Unauthorized triggers another refresh and retry rather
than being surfaced; the number of refreshes equals the number of leading
Unauthorized responses, and the surfaced result is decided by the first
non-Unauthorized response (none is surfaced while every response is
Unauthorized — the pipeline keeps retrying). -/
theorem c1_retry_unbounded :
    (∀ (status d : ℕ) (rest : List HttpResponse) (k : ℕ),
      400 ≤ status → status < 500 →
      generic_request (⟨false, status, .json (some "Unauthorized") d⟩ :: rest) k
        = generic_request rest (k + 1)) ∧
    (∀ (rs : List HttpResponse) (k : ℕ),
      (generic_request rs k).2 = k + (rs.takeWhile is_unauthorized).length) ∧
    (∀ (rs : List HttpResponse) (k : ℕ),
      (generic_request rs k).1 = (generic_request (rs.dropWhile is_unauthorized) 0).1) := by
  refine ⟨?_, ?_, ?_⟩
  · intro status d rest k h4 h5
    apply generic_request_unauth_step
    simp [is_unauthorized, h4, h5]
  · intro rs
    induction rs with
    | nil => intro k; simp [generic_request]
    | cons r rest ih =>
      intro k
      cases h : is_unauthorized r with
      | true =>
        rw [generic_request_unauth_step r rest k h, List.takeWhile_cons_of_pos h]
        simp [ih]
        omega
      | false =>
        rw [generic_request_settled r rest k h, List.takeWhile_cons_of_neg (by simp [h])]
        simp
  · intro rs
    induction rs with
    | nil => intro k; rfl
    | cons r rest ih =>
      intro k
      cases h : is_unauthorized r with
      | true =>
        rw [generic_request_unauth_step r rest k h, List.dropWhile_cons_of_pos h]
        exact ih (k + 1)
      | false =>
        rw [List.dropWhile_cons_of_neg (by simp [h])]
        exact generic_request_fst_const (r :: rest) k 0

/-- C1 witness: a single Unauthorized response (status 401) consumes one
refresh and leaves the pipeline retrying. -/
theorem c1_retry_unbounded_witness :
    generic_request [⟨false, 401, .json (some "Unauthorized") 0⟩] 0 = (none, 1) := by
  have h := c1_retry_unbounded.1 401 0 [] 0 (by norm_num) (by norm_num)
  rw [h]
  rfl

end EO.V2

namespace EO.Common

/-- C2: the single-flight claim fails on the code.  In the interleaving
below, thread 0 runs `refresh` up to (and including) `drop(refresh_guard)`
but has not yet acquired the write lock; thread 1 then acquires the
refresh-checking mutex, finds `try_lock_immutable` succeeding (no writer is
active yet) and also takes the login path.  Both threads invoke the login
closure: the final `loginCount` is 2, not 1, and both callers return
`Ok(())`.  The race window is between `drop(refresh_guard)` and
`self.lock.write()` in `src/common/mod.rs` lines 129–130. -/
theorem c2_refresh_double_login :
    (AMState.run (AMState.init 0 [.ok 1, .ok 2] 2) [0, 0, 0, 1, 1, 1, 0, 0, 1, 1]).loginCount
        = 2 ∧
    (AMState.run (AMState.init 0 [.ok 1, .ok 2] 2) [0, 0, 0, 1, 1, 1, 0, 0, 1, 1]).threads
        = [⟨.done, some (.ok ())⟩, ⟨.done, some (.ok ())⟩] ∧
    (AMState.run (AMState.init 0 [.ok 1, .ok 2] 2) [0, 0, 0, 1, 1, 1, 0, 0, 1, 1]).credential
        = 2 := ⟨rfl, rfl, rfl⟩

/-- C9: when `refresh` performs the login itself (no other refresh in
flight — here a single uncontended caller runs the five statements of the
login path), a failing login closure propagates its error verbatim and
leaves the stored credential unchanged, and a succeeding one stores the
fresh credential and returns `Ok(())`.  The closure is invoked exactly
once in both cases. -/
theorem c9_refresh_result : ∀ (cred e c : ℕ),
    (AMState.run (AMState.init cred [.error e] 1) [0, 0, 0, 0, 0]).credential = cred ∧
    (AMState.run (AMState.init cred [.error e] 1) [0, 0, 0, 0, 0]).threads
      = [⟨.done, some (.error e)⟩] ∧
    (AMState.run (AMState.init cred [.error e] 1) [0, 0, 0, 0, 0]).loginCount = 1 ∧
    (AMState.run (AMState.init cred [.ok c] 1) [0, 0, 0, 0, 0]).credential = c ∧
    (AMState.run (AMState.init cred [.ok c] 1) [0, 0, 0, 0, 0]).threads
      = [⟨.done, some (.ok ())⟩] ∧
    (AMState.run (AMState.init cred [.ok c] 1) [0, 0, 0, 0, 0]).loginCount = 1 :=
  fun cred e c => ⟨rfl, rfl, rfl, rfl, rfl, rfl⟩

/-- C4 counterexample: the 3-wide row `[1, 0, 2]` parses with the third
slot as **lane** (`lane = some 2`) and with `tick = none` — not, as the
claim states, with the third slot as tick and lane absent. -/
theorem c4_counterexample :
    parse_replay (fun _ => some (.arr [.arr [.num 1, .num 0, .num 2]])) (.str "replay")
      = .ok (.ok (some ⟨[⟨1, some 0, some 2, none, none⟩]⟩)) := by
  norm_num [parse_replay, collect_notes, parse_replay_note, parse_replay_note.finish,
    JsonExt.array, JsonExt.attempt_get, JsonExt.f32_,
    Json.as_array, Json.as_f64, Json.as_i64, Json.as_str, Json.is_null,
    Except.map, abs_lt]
  rfl

/-- C4 amended: the trailing slots of a row are independently optional and
positional — slot 2 is always `lane` (with `-1` decoding to absent), slot 3
`note_type`, slot 4 `tick`.  A 3-wide row `[time, deviation_ms, lane]`
therefore yields `lane` from its third slot (absent when that slot is `-1`)
with `note_type` and `tick` absent; a 4-wide row additionally yields
`note_type` with `tick` still absent; and a 5-wide row is the canonical
`[time, deviation_ms, lane, note_type, tick]`; the shape is determined
purely by the row length. -/
theorem c4_row_shapes :
    (∀ (t d : ℚ) (l : ℤ), 0 ≤ l → l ≤ 255 →
      parse_replay (fun _ => some (.arr [.arr [.num t, .num d, .num (l : ℚ)]]))
          (.str "replay")
        = .ok (.ok (some ⟨[⟨t,
            if |d / 1000 - 18 / 100| < 1 / 10000000 then none else some (d / 1000),
            some l.toNat, none, none⟩]⟩))) ∧
    (∀ (t d : ℚ),
      parse_replay (fun _ => some (.arr [.arr [.num t, .num d, .num ((-1 : ℤ) : ℚ)]]))
          (.str "replay")
        = .ok (.ok (some ⟨[⟨t,
            if |d / 1000 - 18 / 100| < 1 / 10000000 then none else some (d / 1000),
            none, none, none⟩]⟩))) ∧
    (∀ (t d : ℚ) (l : ℤ) (ntj : Json) (nt : NoteType),
      0 ≤ l → l ≤ 255 → note_type_from_eo ntj = .ok nt →
      parse_replay
          (fun _ => some (.arr [.arr [.num t, .num d, .num (l : ℚ), ntj]]))
          (.str "replay")
        = .ok (.ok (some ⟨[⟨t,
            if |d / 1000 - 18 / 100| < 1 / 10000000 then none else some (d / 1000),
            some l.toNat, some nt, none⟩]⟩))) ∧
    (∀ (t d : ℚ) (l : ℤ) (ntj : Json) (nt : NoteType) (tk : ℤ),
      0 ≤ l → l ≤ 255 → note_type_from_eo ntj = .ok nt → 0 ≤ tk → tk < 2 ^ 64 →
      parse_replay
          (fun _ => some (.arr [.arr [.num t, .num d, .num (l : ℚ), ntj, .num (tk : ℚ)]]))
          (.str "replay")
        = .ok (.ok (some ⟨[⟨t,
            if |d / 1000 - 18 / 100| < 1 / 10000000 then none else some (d / 1000),
            some l.toNat, some nt, some (tk.toNat % 4294967296)⟩]⟩))) := by
  refine ⟨?_, ?_, ?_, ?_⟩
  · intro t d l h0 h255
    have hden : ((l : ℚ)).den = 1 := Rat.den_intCast l
    have hnum : ((l : ℚ)).num = l := Rat.num_intCast l
    have hne : ¬ (l = -1) := by omega
    have hlo : (-9223372036854775808 : ℤ) ≤ l := by omega
    have hhi : l < (9223372036854775808 : ℤ) := by omega
    simp [parse_replay, collect_notes, parse_replay_note, parse_replay_note.finish,
      JsonExt.array, JsonExt.attempt_get, JsonExt.f32_,
      Json.as_array, Json.as_f64, Json.as_i64, Json.is_null, Json.as_str,
      hden, hnum, hne, hlo, hhi, h0, h255, one_div]
  · intro t d
    have hden : (((-1 : ℤ) : ℚ)).den = 1 := Rat.den_intCast (-1)
    have hnum : (((-1 : ℤ) : ℚ)).num = -1 := Rat.num_intCast (-1)
    have hlo : (-9223372036854775808 : ℤ) ≤ -1 := by norm_num
    have hhi : (-1 : ℤ) < 9223372036854775808 := by norm_num
    simp [parse_replay, collect_notes, parse_replay_note, parse_replay_note.finish,
      JsonExt.array, JsonExt.attempt_get, JsonExt.f32_,
      Json.as_array, Json.as_f64, Json.as_i64, Json.is_null, Json.as_str,
      hden, hnum, hlo, hhi, one_div]
  · intro t d l ntj nt h0 h255 hnt
    have hden : ((l : ℚ)).den = 1 := Rat.den_intCast l
    have hnum : ((l : ℚ)).num = l := Rat.num_intCast l
    have hne : ¬ (l = -1) := by omega
    have hlo : (-9223372036854775808 : ℤ) ≤ l := by omega
    have hhi : l < (9223372036854775808 : ℤ) := by omega
    simp [parse_replay, collect_notes, parse_replay_note, parse_replay_note.finish,
      JsonExt.array, JsonExt.attempt_get, JsonExt.f32_,
      Json.as_array, Json.as_f64, Json.as_i64, Json.is_null, Json.as_str,
      hden, hnum, hne, hlo, hhi, h0, h255, hnt, one_div]
  · intro t d l ntj nt tk h0 h255 hnt ht0 htk
    have hden : ((l : ℚ)).den = 1 := Rat.den_intCast l
    have hnum : ((l : ℚ)).num = l := Rat.num_intCast l
    have hne : ¬ (l = -1) := by omega
    have hlo : (-9223372036854775808 : ℤ) ≤ l := by omega
    have hhi : l < (9223372036854775808 : ℤ) := by omega
    have htden : ((tk : ℚ)).den = 1 := Rat.den_intCast tk
    have htnum : ((tk : ℚ)).num = tk := Rat.num_intCast tk
    have hthi : tk < (18446744073709551616 : ℤ) := by omega
    simp [parse_replay, collect_notes, parse_replay_note, parse_replay_note.finish,
      JsonExt.array, JsonExt.attempt_get, JsonExt.f32_, JsonExt.u32_, JsonExt.u64_,
      Json.as_array, Json.as_f64, Json.as_i64, Json.as_u64, Json.is_null, Json.as_str,
      hden, hnum, hne, hlo, hhi, h0, h255, htden, htnum, ht0, hthi, hnt,
      Except.map, one_div]

/-- C4 witness: the canonical 5-wide row `[1.5, 0, 2, 1, 96]` round-trips
to `time = 1.5`, a zero-deviation hit, lane 2, a Tap note, tick 96. -/
theorem c4_row_shapes_witness :
    parse_replay
        (fun _ => some (.arr [.arr [.num (3 / 2), .num 0, .num ((2 : ℤ) : ℚ),
          .num 1, .num ((96 : ℤ) : ℚ)]]))
        (.str "replay")
      = .ok (.ok (some ⟨[⟨3 / 2, some 0, some 2, some .tap, some 96⟩]⟩)) := by
  have hnt : note_type_from_eo (.num 1) = .ok .tap := by
    have hden : ((1 : ℚ)).den = 1 := rfl
    have hnum : ((1 : ℚ)).num = 1 := rfl
    simp [note_type_from_eo, JsonExt.u32_, JsonExt.u64_, JsonExt.attempt_get,
      Json.as_u64, hden, hnum, Except.map]
  have h := c4_row_shapes.2.2.2 (3 / 2) 0 2 (.num 1) .tap 96
    (by norm_num) (by norm_num) hnt (by norm_num) (by norm_num)
  rw [h]
  norm_num
  refine ⟨fun hc => absurd hc ?_, rfl, rfl⟩
  rw [abs_of_nonneg (by norm_num : (0 : ℚ) ≤ 9 / 50)]
  norm_num

/-- C5 counterexample: an empty outer array does not yield `Ok(None)` —
`values[0]` indexes an empty `Vec` and the call panics. -/
theorem c5_counterexample :
    parse_replay (fun _ => none) (.arr []) = .panicked := rfl

/-- C5 amended: `parse_replay` returns `Ok(None)` — never an error and
never a panic — when the outer JSON value is `null`, a bare
boolean/number/object, or a *nonempty* array whose first element is not a
string, and when the decoded note array is empty; an *empty* outer array
panics (`values[0]` on an empty `Vec`) instead of returning `Ok(None)`.
An inner string that fails to parse as JSON is a hard error, a row whose
present slot fails required-field extraction is a hard error (a one-slot
row whose slot is not a number errors from `note_json[0].f32_()?` before
`note_json[1]` is ever indexed), and hard errors only arise after the
outer unwrap produced an inner string; a required slot that is missing
altogether panics instead of erroring — a row with no slots panics at
`note_json[0]`, and a one-slot row whose slot *is* a number panics at
`note_json[1]`. -/
theorem c5_outer_shapes :
    (∀ dec : String → Option Json, parse_replay dec .null = .ok (.ok none)) ∧
    (∀ (dec : String → Option Json) (b : Bool), parse_replay dec (.bool b) = .ok (.ok none)) ∧
    (∀ (dec : String → Option Json) (q : ℚ), parse_replay dec (.num q) = .ok (.ok none)) ∧
    (∀ (dec : String → Option Json) (fs : List (String × Json)),
      parse_replay dec (.obj fs) = .ok (.ok none)) ∧
    (∀ (dec : String → Option Json) (xs : List Json) (v : Json),
      xs.head? = some v → v.as_str = none → parse_replay dec (.arr xs) = .ok (.ok none)) ∧
    (∀ dec : String → Option Json, parse_replay dec (.arr []) = .panicked) ∧
    (∀ (dec : String → Option Json) (s : String), dec s = none →
      parse_replay dec (.str s) = .ok (.error .serdeJson)) ∧
    (∀ (dec : String → Option Json) (s : String), dec s = some (.arr []) →
      parse_replay dec (.str s) = .ok (.ok none)) ∧
    (∀ (dec : String → Option Json) (s : String), dec s = some (.arr [.arr []]) →
      parse_replay dec (.str s) = .panicked) ∧
    (∀ (dec : String → Option Json) (s : String) (j : Json), j.as_f64 = none →
      dec s = some (.arr [.arr [j]]) →
      parse_replay dec (.str s) = .ok (.error .invalidJsonStructure)) ∧
    (∀ (dec : String → Option Json) (s : String) (q : ℚ),
      dec s = some (.arr [.arr [.num q]]) →
      parse_replay dec (.str s) = .panicked) ∧
    (∀ (dec : String → Option Json) (j : Json) (e : Error),
      parse_replay dec j = .ok (.error e) →
      ∃ s, j = .str s ∨ ∃ xs, j = .arr xs ∧ xs.head? = some (.str s)) := by
  refine ⟨fun dec => rfl, fun dec b => rfl, fun dec q => rfl, fun dec fs => rfl,
    ?_, fun dec => rfl, ?_, ?_, ?_, ?_, ?_, ?_⟩
  · intro dec xs v hv hs
    match xs with
    | [] => exact absurd hv (by simp)
    | x :: xs' =>
      simp only [List.head?_cons, Option.some.injEq] at hv
      subst hv
      simp [parse_replay, Json.is_null, hs]
  · intro dec s h
    simp [parse_replay, Json.is_null, h]
  · intro dec s h
    simp [parse_replay, Json.is_null, h, JsonExt.array, JsonExt.attempt_get,
      Json.as_array, collect_notes]
  · intro dec s h
    simp [parse_replay, Json.is_null, h, JsonExt.array, JsonExt.attempt_get,
      Json.as_array, collect_notes, parse_replay_note]
  · intro dec s j hj h
    simp [parse_replay, Json.is_null, h, JsonExt.array, JsonExt.attempt_get,
      Json.as_array, collect_notes, parse_replay_note, JsonExt.f32_, hj]
  · intro dec s q h
    simp [parse_replay, Json.is_null, h, JsonExt.array, JsonExt.attempt_get,
      Json.as_array, collect_notes, parse_replay_note, JsonExt.f32_, Json.as_f64]
  · intro dec j e h
    match j with
    | .null => exact absurd h (by simp [parse_replay, Json.is_null])
    | .bool b => exact absurd h (by simp [parse_replay, Json.is_null])
    | .num q => exact absurd h (by simp [parse_replay, Json.is_null])
    | .obj fs => exact absurd h (by simp [parse_replay, Json.is_null])
    | .str s => exact ⟨s, .inl rfl⟩
    | .arr [] => exact absurd h (by simp [parse_replay, Json.is_null])
    | .arr (x :: xs') =>
      match hx : x.as_str with
      | none =>
        exfalso
        revert h
        simp [parse_replay, Json.is_null, hx]
      | some s =>
        refine ⟨s, .inr ⟨x :: xs', rfl, ?_⟩⟩
        match x, hx with
        | .str s', hx' =>
          simp only [Json.as_str, Option.some.injEq] at hx'
          subst hx'
          rfl

/-- C5 witness: a decoder failure on the inner string surfaces as the hard
`serde_json` error, per the seventh conjunct of the theorem. -/
theorem c5_outer_shapes_witness :
    parse_replay (fun _ => none) (.str "not json") = .ok (.error .serdeJson) :=
  c5_outer_shapes.2.2.2.2.2.2.1 (fun _ => none) "not json" rfl

/-- C7: a row whose `deviation_ms` is within `1e-7` of the sentinel 180
(after division by 1000) decodes to the miss representation
(`deviation = none`), never to a hit with deviation `0.18`; every other
`deviation_ms` decodes to a hit with deviation `deviation_ms / 1000`. -/
theorem c7_miss_sentinel : ∀ (t d : ℚ),
    (|d / 1000 - 18 / 100| < 1 / 10000000 →
      parse_replay (fun _ => some (.arr [.arr [.num t, .num d]])) (.str "replay")
        = .ok (.ok (some ⟨[⟨t, none, none, none, none⟩]⟩))) ∧
    (¬ |d / 1000 - 18 / 100| < 1 / 10000000 →
      parse_replay (fun _ => some (.arr [.arr [.num t, .num d]])) (.str "replay")
        = .ok (.ok (some ⟨[⟨t, some (d / 1000), none, none, none⟩]⟩))) := by
  intro t d
  constructor
  · intro h
    rw [one_div] at h
    simp [parse_replay, collect_notes, parse_replay_note, parse_replay_note.finish,
      JsonExt.array, JsonExt.attempt_get, JsonExt.f32_,
      Json.as_array, Json.as_f64, Json.is_null, Json.as_str, one_div, h]
  · intro h
    rw [one_div] at h
    rw [not_lt] at h
    simp [parse_replay, collect_notes, parse_replay_note, parse_replay_note.finish,
      JsonExt.array, JsonExt.attempt_get, JsonExt.f32_,
      Json.as_array, Json.as_f64, Json.is_null, Json.as_str, one_div, h]

/-- C7 witness: `deviation_ms = 180` decodes to a miss; `deviation_ms = 0`
decodes to a hit with deviation 0. -/
theorem c7_miss_sentinel_witness :
    parse_replay (fun _ => some (.arr [.arr [.num 1, .num 180]])) (.str "replay")
        = .ok (.ok (some ⟨[⟨1, none, none, none, none⟩]⟩)) ∧
    parse_replay (fun _ => some (.arr [.arr [.num 1, .num 0]])) (.str "replay")
        = .ok (.ok (some ⟨[⟨1, some 0, none, none, none⟩]⟩)) := by
  constructor
  · refine (c7_miss_sentinel 1 180).1 ?_
    norm_num
  · have h := (c7_miss_sentinel 1 0).2 ?_
    · simpa using h
    · rw [abs_of_nonpos (by norm_num)]
      norm_num

end EO.Common

namespace EO.CommonStructs

/-- The loop of `split_into_lanes` aborts with `none` exactly when some
note's `lane` is absent or some note's `lane` is `< 4` while its
`note_type` is absent (notes with `lane ≥ 4` are skipped before their
`note_type` is consulted). -/
theorem split_loop_none_iff : ∀ (notes : List ReplayNote) (acc : Lanes4),
    split_into_lanes_loop notes acc = none ↔ ∃ n ∈ notes, lane_split_fails n := by
  intro notes
  induction notes with
  | nil => intro acc; simp [split_into_lanes_loop]
  | cons note rest ih =>
    intro acc
    cases hl : note.lane with
    | none =>
      simp only [split_into_lanes_loop, hl]
      constructor
      · intro _; exact ⟨note, List.mem_cons_self _ _, .inl hl⟩
      · intro _; trivial
    | some lane =>
      by_cases h4 : 4 ≤ lane
      · simp only [split_into_lanes_loop, hl, if_pos h4]
        rw [ih]
        constructor
        · rintro ⟨n, hn, hf⟩; exact ⟨n, List.mem_cons_of_mem _ hn, hf⟩
        · rintro ⟨n, hn, hf⟩
          rcases List.mem_cons.mp hn with rfl | hn'
          · exfalso
            rcases hf with h | ⟨l, hl', hlt, _⟩
            · rw [hl] at h; exact Option.noConfusion h
            · rw [hl] at hl'; injection hl' with he; omega
          · exact ⟨n, hn', hf⟩
      · cases hnt : note.note_type with
        | none =>
          simp only [split_into_lanes_loop, hl, if_neg h4, hnt]
          constructor
          · intro _; exact ⟨note, List.mem_cons_self _ _, .inr ⟨lane, hl, by omega, hnt⟩⟩
          · intro _; trivial
        | some nt =>
          have tailiff : ∀ lanes', split_into_lanes_loop rest lanes' = none ↔
              ∃ n ∈ note :: rest, lane_split_fails n := by
            intro lanes'
            rw [ih]
            constructor
            · rintro ⟨n, hn, hf⟩; exact ⟨n, List.mem_cons_of_mem _ hn, hf⟩
            · rintro ⟨n, hn, hf⟩
              rcases List.mem_cons.mp hn with rfl | hn'
              · exfalso
                rcases hf with h | ⟨l, hl', hlt, hnt'⟩
                · rw [hl] at h; exact Option.noConfusion h
                · rw [hnt] at hnt'; exact Option.noConfusion hnt'
              · exact ⟨n, hn', hf⟩
          by_cases htype : ¬(nt = .tap ∨ nt = .holdHead)
          · simp only [split_into_lanes_loop, hl, if_neg h4, hnt, if_pos htype]
            exact tailiff acc
          · simp only [split_into_lanes_loop, hl, if_neg h4, hnt, if_neg htype]
            exact tailiff _

/-- When no note makes the loop abort, `split_into_lanes_loop` computes the
retention fold described by the spec. -/
theorem split_loop_ok : ∀ (notes : List ReplayNote) (acc : Lanes4),
    (∀ n ∈ notes, ¬ lane_split_fails n) →
    split_into_lanes_loop notes acc = some (notes.foldl claim_lane_step acc) := by
  intro notes
  induction notes with
  | nil => intro acc _; rfl
  | cons note rest ih =>
    intro acc h
    have hnote := h note (List.mem_cons_self _ _)
    have hrest : ∀ n ∈ rest, ¬ lane_split_fails n :=
      fun n hn => h n (List.mem_cons_of_mem _ hn)
    cases hl : note.lane with
    | none => exact absurd (.inl hl) hnote
    | some lane =>
      rw [List.foldl_cons]
      by_cases h4 : 4 ≤ lane
      · have hstep : claim_lane_step acc note = acc := by
          unfold claim_lane_step
          rw [hl]
          cases hnt : note.note_type with
          | none => rfl
          | some nt => exact if_neg (fun hc => by omega)
        rw [hstep]
        simp only [split_into_lanes_loop, hl, if_pos h4]
        exact ih acc hrest
      · cases hnt : note.note_type with
        | none => exact absurd (.inr ⟨lane, hl, by omega, hnt⟩) hnote
        | some nt =>
          by_cases htype : ¬(nt = .tap ∨ nt = .holdHead)
          · have hstep : claim_lane_step acc note = acc := by
              unfold claim_lane_step
              rw [hl, hnt]
              exact if_neg (fun hc => htype hc.2)
            rw [hstep]
            simp only [split_into_lanes_loop, hl, if_neg h4, hnt, if_pos htype]
            exact ih acc hrest
          · have hstep : claim_lane_step acc note =
                (let lanes := acc.update lane
                  (fun s => { s with note_seconds := s.note_seconds ++ [note.time] })
                 match note.hit with
                 | .hit deviation => lanes.update lane
                     (fun s => { s with hit_seconds := s.hit_seconds ++ [note.time + deviation] })
                 | .miss => lanes) := by
              unfold claim_lane_step
              rw [hl, hnt]
              exact if_pos ⟨by omega, not_not.mp htype⟩
            rw [hstep]
            simp only [split_into_lanes_loop, hl, if_neg h4, hnt, if_neg htype]
            exact ih _ hrest

/-- C6 counterexample: a replay containing a note whose `note_type` is
absent but whose `lane` is `Some 4` is **not** rejected — the `lane >= 4`
test skips the note before `note_type` is consulted, so `split_into_lanes`
returns `Some` (four empty lanes) although the claim requires `None` for
every replay containing a note with absent `note_type`. -/
theorem c6_counterexample :
    Replay.split_into_lanes ⟨[⟨0, .miss, some 4, none, none⟩]⟩ = some .empty := rfl

/-- C6 amended: `split_into_lanes` returns `None` exactly when some note
has an absent `lane`, or has `lane < 4` and an absent `note_type` (a note
with `lane ≥ 4` is dropped without consulting its `note_type`).  Otherwise
it returns the four lane series in which only notes of type Tap or
HoldHead with `lane < 4` are retained, each retained note's `time` is
appended to its lane's `note_seconds`, and `time + deviation` is appended
to `hit_seconds` only when the note is a hit — as in the claim's example
scenario, where the miss contributes no hit-second. -/
theorem c6_lane_split :
    (∀ r : Replay, r.split_into_lanes = none ↔ ∃ n ∈ r.notes, lane_split_fails n) ∧
    (∀ r : Replay, (∀ n ∈ r.notes, ¬ lane_split_fails n) →
      r.split_into_lanes = some (lanes_per_claim r.notes)) ∧
    Replay.split_into_lanes ⟨[⟨0, .hit (15/100), some 0, some .tap, none⟩,
        ⟨1, .miss, some 1, some .tap, none⟩]⟩
      = some ⟨⟨[0], [15/100]⟩, ⟨[1], []⟩, ⟨[], []⟩, ⟨[], []⟩⟩ := by
  refine ⟨fun r => split_loop_none_iff r.notes .empty,
    fun r h => split_loop_ok r.notes .empty h, ?_⟩
  norm_num [Replay.split_into_lanes, split_into_lanes_loop, Lanes4.update, Lanes4.empty]

/-- C6 witness: the second conjunct applied to the claim's example replay
(all lanes present and `< 4`, all note types present). -/
theorem c6_lane_split_witness :
    Replay.split_into_lanes ⟨[⟨0, .hit (15/100), some 0, some .tap, none⟩,
        ⟨1, .miss, some 1, some .tap, none⟩]⟩
      = some (lanes_per_claim [⟨0, .hit (15/100), some 0, some .tap, none⟩,
        ⟨1, .miss, some 1, some .tap, none⟩]) := by
  refine c6_lane_split.2.1 _ ?_
  intro n hn
  rcases List.mem_cons.mp hn with rfl | hn'
  · intro hf
    rcases hf with h | ⟨l, hl', hlt, hnt⟩
    · exact Option.noConfusion h
    · exact Option.noConfusion hnt
  · rcases List.mem_cons.mp hn' with rfl | hn''
    · intro hf
      rcases hf with h | ⟨l, hl', hlt, hnt⟩
      · exact Option.noConfusion h
      · exact Option.noConfusion hnt
    · exact absurd hn'' (List.not_mem_nil _)

/-- C10: a `Replay` constructed directly with an empty notes vector is not
rejected by the splitters: `split_into_lanes` returns `Some` of four empty
lane series and `split_into_notes_and_hits` returns `Some` of an empty
series; the "no usable replay" normalization to `None` happens only inside
`parse_replay` (whose decoded-empty case returns `Ok(None)`). -/
theorem c10_empty_replay :
    Replay.split_into_lanes ⟨[]⟩ = some .empty ∧
    Replay.split_into_notes_and_hits ⟨[]⟩ = some ⟨[], []⟩ ∧
    (∀ (dec : String → Option EO.Json) (s : String), dec s = some (.arr []) →
      EO.Common.parse_replay dec (.str s) = .ok (.ok none)) := by
  refine ⟨rfl, rfl, ?_⟩
  intro dec s h
  simp [EO.Common.parse_replay, EO.Json.is_null, h, EO.JsonExt.array,
    EO.JsonExt.attempt_get, EO.Json.as_array, EO.Common.collect_notes]

/-- C10 witness: the third conjunct at a concrete decoder. -/
theorem c10_empty_replay_witness :
    EO.Common.parse_replay (fun _ => some (.arr [])) (.str "x") = .ok (.ok none) :=
  c10_empty_replay.2.2 (fun _ => some (.arr [])) "x" rfl

end EO.CommonStructs

namespace EO.Skillsets

/-- C8: for every vector of seven category values (and every fuel bound for
the abstract numeric kernels), the chart-level overall equals the maximum
of `calc_rating(categories, 11, bias, 1.11, 0.25)` and the largest
individual category — hence the chart overall dominates every category —
while the player-level overall equals
`calc_rating(categories, 11, bias, 1.0, 0.1)` with no max-category
override.  Both are plain functions of their inputs (determinism). -/
theorem c8_overall_aggregation :
    ∀ (fuel : ℕ) (erfc pow : ℚ → ℚ) (s : ChartSkillsets) (u : UserSkillsets),
    ChartSkillsets.overall fuel erfc pow s
      = max (calc_rating fuel erfc pow s.asList 11 true (111/100) (25/100))
          (max (max (max (max (max (max s.stream s.jumpstream) s.handstream) s.stamina)
            s.jackspeed) s.chordjack) s.technical) ∧
    s.stream ≤ ChartSkillsets.overall fuel erfc pow s ∧
    s.jumpstream ≤ ChartSkillsets.overall fuel erfc pow s ∧
    s.handstream ≤ ChartSkillsets.overall fuel erfc pow s ∧
    s.stamina ≤ ChartSkillsets.overall fuel erfc pow s ∧
    s.jackspeed ≤ ChartSkillsets.overall fuel erfc pow s ∧
    s.chordjack ≤ ChartSkillsets.overall fuel erfc pow s ∧
    s.technical ≤ ChartSkillsets.overall fuel erfc pow s ∧
    UserSkillsets.overall fuel erfc pow u
      = calc_rating fuel erfc pow u.asList 11 true 1 (1/10) := by
  intro fuel erfc pow s u
  refine ⟨rfl, ?_, ?_, ?_, ?_, ?_, ?_, ?_, rfl⟩ <;>
    simp [ChartSkillsets.overall, le_max_iff, le_refl]

end EO.Skillsets
